import Mathlib

/-
Shallow embedding of src/functions/product_image_analyzer/main.py (the frostcart
product-image analyzer Cloud Function) and proofs about its request pipeline.

Modelling conventions:
* Python exceptions become an `Except PyError` result; `PyError` keeps the Python
  exception class (ValueError / RuntimeError / network-library errors) because the
  HTTP handler maps `ValueError` to status 400 and every other exception to 500.
* The two external collaborators (the Supabase row store and the Gemini model
  backend) and the stdlib JSON parser are modelled as an explicit environment
  `Env` plus an explicit store value threaded through the pipeline.
* Image bytes are `List Nat` (opaque payload).  Timestamps are `Nat`, standing
  for the UTC instant that `datetime.now(timezone.utc).isoformat()` renders in
  ISO-8601; the textual rendering itself is stdlib behaviour at the boundary.
* The fixed Gemini sampling configuration (temperature 0.35, top_p 0.8, top_k 32,
  JSON response mime type) is floating-point configuration data passed through to
  the backend verbatim; it does not influence any control flow in main.py and is
  not part of the embedding.
-/

set_option autoImplicit false

namespace FrostCart

/-- Json models the Python values produced by json.loads / consumed by json.dumps. -/
inductive Json where
  | null
  | bool (b : Bool)
  | num (n : Int)
  | str (s : String)
  | arr (elems : List Json)
  | obj (fields : List (String × Json))

/-- jsonTruthy models Python truthiness of a JSON value (used by `payload or {}`). -/
def jsonTruthy : Json → Bool
  | .null => false
  | .bool b => b
  | .num n => n != 0
  | .str s => !s.isEmpty
  | .arr elems => !elems.isEmpty
  | .obj fields => !fields.isEmpty

/-- jsonGet models `payload.get(key)` on a dict payload.  The handler only calls
it on dict payloads in the scenarios the claims cover; Python would raise
AttributeError on a non-dict payload, a path outside every claim. -/
def jsonGet (v : Json) (key : String) : Option Json :=
  match v with
  | .obj fields => fields.lookup key
  | _ => none

/-- strTruthy models Python truthiness of an optional string: None and the empty
string are falsy, every other string is truthy. -/
def strTruthy : Option String → Bool
  | none => false
  | some s => !s.isEmpty

/-- PyError records which Python exception class a failure raised, since the
handler maps ValueError to HTTP 400 and every other exception to HTTP 500.
`requestError` stands for the exceptions raised by `requests` (connection
failure, timeout, `raise_for_status` on a non-2xx response). -/
inductive PyError where
  | valueError (msg : String)
  | runtimeError (msg : String)
  | requestError (msg : String)

/-- message extracts `str(exc)`, the text the handler serialises into the body. -/
def PyError.message : PyError → String
  | .valueError m => m
  | .runtimeError m => m
  | .requestError m => m

/-- ProductImageRecord holds the fields of a `product_images` row that main.py
reads (`thumbnail_url`, `primary_image_url`, `image_urls`) or writes
(`ai_metadata`, `updated_at`).  `none` models an absent / NULL field. -/
structure ProductImageRecord where
  thumbnail_url : Option String
  primary_image_url : Option String
  image_urls : Option (List String)
  ai_metadata : Option Json
  updated_at : Option Nat

/-- Row is one `product_images` row together with its primary id. -/
structure Row where
  id : String
  record : ProductImageRecord

/-- Store is the record store (the `product_images` table). -/
structure Store where
  rows : List Row

/-- Bytes stands for the raw image payload. -/
abbrev Bytes := List Nat

/-- Part mirrors a Gemini response part: `text` is None or a string. -/
structure Part where
  text : Option String

/-- Content mirrors a Gemini candidate content holding the parts list. -/
structure Content where
  parts : List Part

/-- Candidate mirrors one Gemini response candidate. -/
structure Candidate where
  content : Content

/-- GeminiResponse mirrors the response of `client.models.generate_content`. -/
structure GeminiResponse where
  candidates : List Candidate

/-- Env packages the external collaborators of one request: the HTTP fetcher,
the Gemini backend, the stdlib JSON parser, environment configuration, whether
the Supabase update call raises APIError, and the UTC clock reading taken when
the persistence payload is built. -/
structure Env where
  httpGet : String → Except String Bytes
  generateContent : String → Bytes → String → GeminiResponse
  parseJson : String → Option Json
  geminiModelId : Option String
  persistApiError : Option String
  now : Nat

/-- DbState is the mutable world the pipeline can write to: the store plus a
count of update requests issued against it (a write attempt is counted even
when the backend then raises). -/
structure DbState where
  store : Store
  writeAttempts : Nat

/-- msgNoRow is the ValueError message of `_fetch_product_image_record`. -/
def msgNoRow (image_id : String) : String :=
  "No product_images row found for id \x27" ++ image_id ++ "\x27"

/-- msgNoUsable is the ValueError message of `_select_image_url`. -/
def msgNoUsable : String :=
  "No usable image URL found in product_images record"

/-- msgNoCandidates is the RuntimeError message for an empty candidate list. -/
def msgNoCandidates : String :=
  "Gemini returned no candidates"

/-- msgInvalidJson is the ValueError message for a non-JSON text part. -/
def msgInvalidJson (t : String) : String :=
  "Gemini response is not valid JSON: " ++ t

/-- msgNoTextContent is the RuntimeError message when no part carries text. -/
def msgNoTextContent : String :=
  "Gemini candidate had no textual JSON content"

/-- msgPersistFailed is the RuntimeError message wrapping a Supabase APIError. -/
def msgPersistFailed (apiMsg : String) : String :=
  "Failed to update product_images.ai_metadata: " ++ apiMsg

/-- msgNoImageInput is the ValueError message of the derived-url check in
`_analyze`. -/
def msgNoImageInput : String :=
  "No image URL provided or found in Supabase record"

/-- defaultModelId is the fallback for the GEMINI_MODEL_ID environment entry. -/
def defaultModelId : String :=
  "gemini-2.5-flash"

/-- promptText is the fixed instruction text sent with the image. -/
def promptText : String :=
  "You are assisting an ice-cream marketplace. Analyze this product photo and provide: \n1. A concise product title (<= 12 words).\n2. Likely product category (ice cream, sorbet, frozen dessert, gelato, popsicle, other).\n3. Estimated price in INR (integer).\n4. Tasting description (40-60 words).\nReturn JSON with keys: title, category, price_inr, description."

/-- rowsMatching models `.select("*").eq("id", image_id)`: the rows whose id
equals the requested id. -/
def rowsMatching (st : Store) (image_id : String) : List Row :=
  st.rows.filter fun row => row.id == image_id

/-- Embedding of `_fetch_product_image_record`: a single-row lookup that raises
ValueError when the store returns zero rows.  Multiple matches are undefined by
the backend contract; the model takes the first, matching `.single()` data. -/
def _fetch_product_image_record (st : Store) (image_id : String) :
    Except PyError ProductImageRecord :=
  match rowsMatching st image_id with
  | [] => .error (.valueError (msgNoRow image_id))
  | row :: _ => .ok row.record

/-- Embedding of `_select_image_url`: thumbnail_url if truthy, else
primary_image_url if truthy, else `(record.get("image_urls") or [])[0]` if that
list is non-empty, else ValueError. -/
def _select_image_url (record : ProductImageRecord) : Except PyError String :=
  if strTruthy record.thumbnail_url then .ok (record.thumbnail_url.getD "")
  else if strTruthy record.primary_image_url then .ok (record.primary_image_url.getD "")
  else
    match record.image_urls.getD [] with
    | [] => .error (.valueError msgNoUsable)
    | u :: _ => .ok u

/-- Embedding of `_download_image`: `requests.get(url, timeout=20)` followed by
`raise_for_status()`; any network or non-2xx failure is a requests exception. -/
def _download_image (env : Env) (image_url : String) : Except PyError Bytes :=
  match env.httpGet image_url with
  | .ok contents => .ok contents
  | .error msg => .error (.requestError msg)

/-- scanParts embeds the part loop of `_call_gemini`: skip parts whose `text`
is falsy; at the first truthy text, return `json.loads` of it or raise
ValueError with the raw text; RuntimeError when the loop exhausts the parts. -/
def scanParts (env : Env) : List Part → Except PyError Json
  | [] => .error (.runtimeError msgNoTextContent)
  | part :: rest =>
    match part.text with
    | some t =>
      if !t.isEmpty then
        match env.parseJson t with
        | some value => .ok value
        | none => .error (.valueError (msgInvalidJson t))
      else scanParts env rest
    | none => scanParts env rest

/-- Embedding of `_call_gemini`: send prompt plus image bytes to the model,
RuntimeError on zero candidates, otherwise scan the first candidate. -/
def _call_gemini (env : Env) (image_bytes : Bytes) (model_id : String) :
    Except PyError Json :=
  let response := env.generateContent promptText image_bytes model_id
  match response.candidates with
  | [] => .error (.runtimeError msgNoCandidates)
  | candidate :: _ => scanParts env candidate.content.parts

/-- updateRow applies the update payload to one row when its id matches the
equality filter. -/
def updateRow (image_id : String) (metadata : Json) (ts : Nat) (row : Row) : Row :=
  if row.id == image_id then
    { row with record :=
        { row.record with ai_metadata := some metadata, updated_at := some ts } }
  else row

/-- storeUpdate models `.update(payload).eq("id", image_id).execute()`. -/
def storeUpdate (st : Store) (image_id : String) (metadata : Json) (ts : Nat) : Store :=
  { rows := st.rows.map (updateRow image_id metadata ts) }

/-- Embedding of `_update_ai_metadata`: build the payload with the current UTC
time, issue the update (counted as a write attempt), and wrap a backend
APIError into a RuntimeError.  On APIError the store is unchanged. -/
def _update_ai_metadata (env : Env) (db : DbState) (image_id : String)
    (metadata : Json) : Except PyError Unit × DbState :=
  let ts := env.now
  let db1 : DbState := { db with writeAttempts := db.writeAttempts + 1 }
  match env.persistApiError with
  | some apiMsg => (.error (.runtimeError (msgPersistFailed apiMsg)), db1)
  | none => (.ok (), { db1 with store := storeUpdate db1.store image_id metadata ts })

/-- AnalyzeResult is the success dict of `_analyze`. -/
structure AnalyzeResult where
  source_image_url : String
  analysis : Json

/-- Embedding of `_analyze`: the shared pipeline.  `image_id` / `image_url` are
the values read from the payload (None when absent).  The first component of
the pair is the Python return-or-raise, the second the resulting world. -/
def _analyze (env : Env) (db : DbState) (image_id : Option String)
    (image_url : Option String) : Except PyError AnalyzeResult × DbState :=
  let fetchStep : Except PyError (Option String × Option ProductImageRecord) :=
    if strTruthy image_id then
      match _fetch_product_image_record db.store (image_id.getD "") with
      | .error e => .error e
      | .ok record =>
        match _select_image_url record with
        | .error e => .error e
        | .ok url => .ok (some url, some record)
    else .ok (image_url, none)
  match fetchStep with
  | .error e => (.error e, db)
  | .ok (derived_url, record) =>
    if !strTruthy derived_url then (.error (.valueError msgNoImageInput), db)
    else
      let url := derived_url.getD ""
      match _download_image env url with
      | .error e => (.error e, db)
      | .ok image_bytes =>
        let model_id := env.geminiModelId.getD defaultModelId
        match _call_gemini env image_bytes model_id with
        | .error e => (.error e, db)
        | .ok analysis =>
          if strTruthy image_id && record.isSome then
            match _update_ai_metadata env db (image_id.getD "") analysis with
            | (.error e, db2) => (.error e, db2)
            | (.ok _, db2) =>
              (.ok { source_image_url := url, analysis := analysis }, db2)
          else (.ok { source_image_url := url, analysis := analysis }, db)

/-- HttpRequest models the incoming request: its method and the result of
`request.get_json(silent=True)` (`none` when the body is not well-formed JSON,
in which case Flask returns None instead of raising). -/
structure HttpRequest where
  method : String
  body : Option Json

/-- RespBody distinguishes the plain-text 405 body from `json.dumps` bodies. -/
inductive RespBody where
  | text (s : String)
  | jsonBody (v : Json)

/-- HttpResponse is the tuple the handler returns. -/
structure HttpResponse where
  body : RespBody
  status : Nat
  contentType : Option String

/-- ctJson is the Content-Type header value set on every JSON body. -/
def ctJson : String := "application/json"

/-- kError is the single key of every error body. -/
def kError : String := "error"

/-- kProductImageId is the payload key for the record id. -/
def kProductImageId : String := "product_image_id"

/-- kImageUrl is the payload key for the direct image URL. -/
def kImageUrl : String := "image_url"

/-- kSourceImageUrl is the success-body key for the resolved URL. -/
def kSourceImageUrl : String := "source_image_url"

/-- kAnalysis is the success-body key for the analysis value. -/
def kAnalysis : String := "analysis"

/-- methodNotAllowedBody is the literal body of the 405 response. -/
def methodNotAllowedBody : String := "Method Not Allowed"

/-- parseBody embeds `request.get_json(silent=True) or {}`: a malformed body
yields None which the `or` replaces with an empty dict; a well-formed but falsy
body (e.g. `{}`, `null`, `0`) is likewise replaced by the empty dict.  With
silent=True this never raises, so the `except` arm returning 400
"Invalid JSON body" in main.py is unreachable and has no model. -/
def parseBody (body : Option Json) : Json :=
  match body with
  | none => .obj []
  | some v => if jsonTruthy v then v else .obj []

/-- getStrField reads an optional string field from the payload.  The claims
only exercise absent or string-valued fields; a value of another JSON type
(which Python would pass through raw) is outside their scope. -/
def getStrField (payload : Json) (key : String) : Option String :=
  match jsonGet payload key with
  | some (.str s) => some s
  | _ => none

/-- errorResponse is the `(json.dumps({"error": msg}), status, headers)` tuple. -/
def errorResponse (status : Nat) (msg : String) : HttpResponse :=
  { body := .jsonBody (.obj [(kError, .str msg)]),
    status := status,
    contentType := some ctJson }

/-- successBody is `json.dumps({"source_image_url": ..., "analysis": ...})`. -/
def successBody (result : AnalyzeResult) : Json :=
  .obj [(kSourceImageUrl, .str result.source_image_url), (kAnalysis, result.analysis)]

/-- Embedding of `analyze_product_image`, the HTTP entry point: 405 on non-POST,
body parsing, the shared pipeline, and the exception-to-status mapping
(ValueError to 400, every other exception to 500). -/
def analyze_product_image (env : Env) (db : DbState) (request : HttpRequest) :
    HttpResponse × DbState :=
  if request.method != "POST" then
    ({ body := .text methodNotAllowedBody, status := 405, contentType := none }, db)
  else
    let payload := parseBody request.body
    let image_id := getStrField payload kProductImageId
    let image_url := getStrField payload kImageUrl
    match _analyze env db image_id image_url with
    | (.error (.valueError msg), db2) => (errorResponse 400 msg, db2)
    | (.error (.runtimeError msg), db2) => (errorResponse 500 msg, db2)
    | (.error (.requestError msg), db2) => (errorResponse 500 msg, db2)
    | (.ok result, db2) =>
      ({ body := .jsonBody (successBody result), status := 200,
         contentType := some ctJson }, db2)

/-! Helper lemmas shared by the claim theorems. -/

/-- Helper: a non-empty string is a truthy optional string. -/
theorem strTruthy_true_of_ne {s : String} (h : s ≠ "") : strTruthy (some s) = true := by
  have hns : s.isEmpty = false := by
    cases h2 : s.isEmpty with
    | false => rfl
    | true => exact absurd ((String.isEmpty_iff s).mp h2) h
  simp [strTruthy, hns]

/-- Helper: a falsy id skips the fetch stage and the persist stage, so the
world is unchanged and the outcome does not depend on the world. -/
theorem analyze_falsy_id (env : Env) (db db2 : DbState) (image_id u : Option String)
    (hid : strTruthy image_id = false) :
    (_analyze env db image_id u).2 = db ∧
    (_analyze env db image_id u).1 = (_analyze env db2 image_id u).1 := by
  by_cases hu : strTruthy u = true
  · simp only [_analyze, hid, Bool.false_eq_true, if_false, hu, Bool.not_true,
      Bool.false_eq_true, if_false]
    cases hdl : _download_image env (u.getD "") with
    | error e => simp [hdl]
    | ok contents =>
      cases hg : _call_gemini env contents (env.geminiModelId.getD defaultModelId) with
      | error e => simp [hdl, hg]
      | ok analysis => simp [hdl, hg, hid]
  · have hu2 : strTruthy u = false := by
      cases h2 : strTruthy u
      · rfl
      · exact absurd h2 hu
    simp [_analyze, hid, hu2]

-- Concrete inputs for the C1 counterexample and witness.

/-- recC1cex has no thumbnail, no primary URL, and a one-element image_urls
list whose only element is the empty string. -/
def recC1cex : ProductImageRecord :=
  { thumbnail_url := none, primary_image_url := none, image_urls := some [""],
    ai_metadata := none, updated_at := none }

/-- C1, counterexample: in recC1cex every field is empty or absent in the
claim's sense (no thumbnail, no primary URL, and the first element of
image_urls is the empty string), yet `_select_image_url` does not fail: it
returns the empty string, because the code only tests whether the image_urls
list itself is non-empty, never its first element. -/
theorem select_image_url_empty_element_cex :
    strTruthy recC1cex.thumbnail_url = false ∧
    strTruthy recC1cex.primary_image_url = false ∧
    recC1cex.image_urls = some [""] ∧
    _select_image_url recC1cex = .ok "" := by
  refine ⟨rfl, rfl, rfl, ?_⟩
  rfl

/-- C1 (amended): resolution returns thumbnail_url when it is non-empty
(regardless of the other fields), else primary_image_url when that is
non-empty, else the first element of image_urls whenever the list is present
and non-empty — even when that element is the empty string — and fails with
the ValueError only when thumbnail and primary are empty or absent and
image_urls is empty or absent. -/
theorem select_image_url_priority (r : ProductImageRecord) :
    (∀ t, r.thumbnail_url = some t → t ≠ "" → _select_image_url r = .ok t) ∧
    (strTruthy r.thumbnail_url = false →
      ∀ p, r.primary_image_url = some p → p ≠ "" → _select_image_url r = .ok p) ∧
    (strTruthy r.thumbnail_url = false → strTruthy r.primary_image_url = false →
      ∀ u rest, r.image_urls.getD [] = u :: rest → _select_image_url r = .ok u) ∧
    (strTruthy r.thumbnail_url = false → strTruthy r.primary_image_url = false →
      r.image_urls.getD [] = [] →
      _select_image_url r = .error (.valueError msgNoUsable)) := by
  refine ⟨?_, ?_, ?_, ?_⟩
  · intro t ht hne
    have h2 := strTruthy_true_of_ne hne
    simp [_select_image_url, ht, h2]
  · intro h1 p hp hne
    have h2 := strTruthy_true_of_ne hne
    simp [_select_image_url, h1, hp, h2]
  · intro h1 h2 u rest hu
    simp [_select_image_url, h1, h2, hu]
  · intro h1 h2 hnil
    simp [_select_image_url, h1, h2, hnil]

/-- recC1w1 carries all three candidate fields. -/
def recC1w1 : ProductImageRecord :=
  { thumbnail_url := some "thumb", primary_image_url := some "primary",
    image_urls := some ["first"], ai_metadata := none, updated_at := none }

/-- recC1w2 has an empty thumbnail and a non-empty primary URL. -/
def recC1w2 : ProductImageRecord :=
  { thumbnail_url := some "", primary_image_url := some "primary",
    image_urls := some ["first"], ai_metadata := none, updated_at := none }

/-- recC1w3 only carries the image_urls list. -/
def recC1w3 : ProductImageRecord :=
  { thumbnail_url := none, primary_image_url := none,
    image_urls := some ["first", "second"], ai_metadata := none, updated_at := none }

/-- recC1w4 has no usable field at all. -/
def recC1w4 : ProductImageRecord :=
  { thumbnail_url := none, primary_image_url := some "",
    image_urls := none, ai_metadata := none, updated_at := none }

/-- C1, witness: the amended priority theorem evaluated on four concrete
records, one per branch. -/
theorem select_image_url_priority_witness :
    _select_image_url recC1w1 = .ok "thumb" ∧
    _select_image_url recC1w2 = .ok "primary" ∧
    _select_image_url recC1w3 = .ok "first" ∧
    _select_image_url recC1w4 = .error (.valueError msgNoUsable) :=
  ⟨(select_image_url_priority recC1w1).1 "thumb" rfl (by decide),
   (select_image_url_priority recC1w2).2.1 rfl "primary" rfl (by decide),
   (select_image_url_priority recC1w3).2.2.1 rfl rfl "first" ["second"] rfl,
   (select_image_url_priority recC1w4).2.2.2 rfl rfl rfl⟩

/-- C3: when the payload carries a truthy product_image_id for which the store
returns zero rows, the handler answers 400 with body
obj [(error, "No product_images row found for id ...")] and the world is
unchanged. -/
theorem record_not_found_response (env : Env) (db : DbState) (req : HttpRequest)
    (image_id : String)
    (hm : req.method = "POST")
    (hid : getStrField (parseBody req.body) kProductImageId = some image_id)
    (hne : image_id ≠ "")
    (hzero : rowsMatching db.store image_id = []) :
    analyze_product_image env db req = (errorResponse 400 (msgNoRow image_id), db) := by
  have htr := strTruthy_true_of_ne hne
  simp [analyze_product_image, hm, hid, _analyze, htr,
    _fetch_product_image_record, hzero]

/-- envC3 is an environment none of whose collaborators is consulted. -/
def envC3 : Env :=
  { httpGet := fun _ => .error "unused",
    generateContent := fun _ _ _ => { candidates := [] },
    parseJson := fun _ => none,
    geminiModelId := none,
    persistApiError := none,
    now := 0 }

/-- dbC3 is a store with no rows at all. -/
def dbC3 : DbState := { store := { rows := [] }, writeAttempts := 0 }

/-- reqC3 posts the id "abc". -/
def reqC3 : HttpRequest :=
  { method := "POST", body := some (.obj [(kProductImageId, .str "abc")]) }

/-- C3, witness: POSTing the unknown id "abc" against an empty store yields
exactly the 400 body of the scenario, with the message spelled out. -/
theorem record_not_found_response_witness :
    analyze_product_image envC3 dbC3 reqC3 = (errorResponse 400 (msgNoRow "abc"), dbC3) ∧
    msgNoRow "abc" = "No product_images row found for id \x27abc\x27" :=
  ⟨record_not_found_response envC3 dbC3 reqC3 "abc" rfl rfl (by decide) rfl, rfl⟩

/-- C5 (amended): any non-POST request is answered with status 405 and the
plain-text reason body "Method Not Allowed" (not an empty body), no JSON
content type, and no pipeline stage runs: the world is returned unchanged and
the response does not depend on the environment or the store. -/
theorem non_post_method_response (env : Env) (db : DbState) (req : HttpRequest)
    (hm : req.method ≠ "POST") :
    analyze_product_image env db req =
      ({ body := .text methodNotAllowedBody, status := 405, contentType := none }, db) := by
  simp [analyze_product_image, bne_iff_ne, hm]

/-- envC5 is an environment none of whose collaborators is consulted. -/
def envC5 : Env :=
  { httpGet := fun _ => .error "unused",
    generateContent := fun _ _ _ => { candidates := [] },
    parseJson := fun _ => none,
    geminiModelId := none,
    persistApiError := none,
    now := 0 }

/-- dbC5 is an empty store. -/
def dbC5 : DbState := { store := { rows := [] }, writeAttempts := 0 }

/-- reqC5 is a GET request. -/
def reqC5 : HttpRequest := { method := "GET", body := none }

/-- C5, counterexample: a GET request is answered with status 405 as the claim
states, but the reason body is the non-empty text "Method Not Allowed", not
the empty reason body the claim asserts. -/
theorem non_post_empty_body_cex :
    (analyze_product_image envC5 dbC5 reqC5).1.status = 405 ∧
    (analyze_product_image envC5 dbC5 reqC5).1.body = .text "Method Not Allowed" ∧
    (analyze_product_image envC5 dbC5 reqC5).1.body ≠ .text "" := by
  refine ⟨rfl, rfl, ?_⟩
  intro hc
  have h : (analyze_product_image envC5 dbC5 reqC5).1.body = .text "Method Not Allowed" := rfl
  rw [h] at hc
  injection hc with hs
  exact absurd hs (by decide)

/-- C5, witness: the amended theorem applied to the concrete GET request. -/
theorem non_post_method_response_witness :
    analyze_product_image envC5 dbC5 reqC5 =
      ({ body := .text methodNotAllowedBody, status := 405, contentType := none }, dbC5) :=
  non_post_method_response envC5 dbC5 reqC5 (by decide)

/-- C9: a POST whose body is not well-formed JSON (get_json yields None) is
treated as the empty object and does not fail at the parse stage; with no
fields at all it then fails at input resolution with the missing-image-input
ValueError, answered as 400, and the world is unchanged. -/
theorem malformed_body_resolution (env : Env) (db : DbState) (req : HttpRequest)
    (hm : req.method = "POST") (hbody : req.body = none) :
    analyze_product_image env db req = (errorResponse 400 msgNoImageInput, db) := by
  simp [analyze_product_image, hm, hbody, parseBody, getStrField, jsonGet,
    _analyze, strTruthy]

/-- reqC9 posts a malformed body. -/
def reqC9 : HttpRequest := { method := "POST", body := none }

/-- C9, witness: the malformed-body theorem on a concrete request, with the
error message spelled out. -/
theorem malformed_body_resolution_witness :
    analyze_product_image envC5 dbC5 reqC9 = (errorResponse 400 msgNoImageInput, dbC5) ∧
    msgNoImageInput = "No image URL provided or found in Supabase record" :=
  ⟨malformed_body_resolution envC5 dbC5 reqC9 rfl rfl, rfl⟩

/-- Helper: a scan over parts that all have falsy text fails with the
no-textual-content RuntimeError. -/
theorem scanParts_all_falsy (env : Env) (ps : List Part)
    (h : ∀ p ∈ ps, strTruthy p.text = false) :
    scanParts env ps = .error (.runtimeError msgNoTextContent) := by
  induction ps with
  | nil => rfl
  | cons p rest ih =>
    have hrest := ih fun q hq => h q (List.mem_cons_of_mem p hq)
    have hp := h p (List.mem_cons_self p rest)
    cases hpt : p.text with
    | none => simp [scanParts, hpt, hrest]
    | some t =>
      rw [hpt] at hp
      have hte : t.isEmpty = true := by simpa [strTruthy] using hp
      simp [scanParts, hpt, hte, hrest]

/-- Helper: a prefix of falsy-text parts is skipped by the scan. -/
theorem scanParts_skip_falsy (env : Env) (pre : List Part) (p : Part) (post : List Part)
    (hpre : ∀ q ∈ pre, strTruthy q.text = false) :
    scanParts env (pre ++ p :: post) = scanParts env (p :: post) := by
  induction pre with
  | nil => rfl
  | cons q rest ih =>
    have ihr := ih fun x hx => hpre x (List.mem_cons_of_mem q hx)
    have hq := hpre q (List.mem_cons_self q rest)
    cases hqt : q.text with
    | none => simp [scanParts, hqt, ihr]
    | some t =>
      rw [hqt] at hq
      have hte : t.isEmpty = true := by simpa [strTruthy] using hq
      simp [scanParts, hqt, hte, ihr]

/-- Helper: the first truthy-text part decides the scan: its JSON parse on
success, the invalid-JSON ValueError with the raw text on failure. -/
theorem scanParts_first_text (env : Env) (p : Part) (post : List Part) (t : String)
    (hpt : p.text = some t) (ht : t ≠ "") :
    scanParts env (p :: post) =
      (match env.parseJson t with
       | some v => .ok v
       | none => .error (.valueError (msgInvalidJson t))) := by
  have hte : t.isEmpty = false := by
    cases h2 : t.isEmpty with
    | false => rfl
    | true => exact absurd ((String.isEmpty_iff t).mp h2) ht
  simp [scanParts, hpt, hte]

/-- C4: response handling of the analysis engine.  Zero candidates fail with
the no-candidates RuntimeError; otherwise the first candidate's parts are
scanned in order, parts with falsy text are skipped, and the first part
carrying text decides the call: its parsed JSON on success, the invalid-JSON
ValueError carrying the raw text when it does not parse; when every part has
falsy text the call fails with the no-textual-content RuntimeError. -/
theorem call_gemini_response_spec (env : Env) (contents : Bytes) (model_id : String) :
    ((env.generateContent promptText contents model_id).candidates = [] →
      _call_gemini env contents model_id = .error (.runtimeError msgNoCandidates)) ∧
    (∀ c cs, (env.generateContent promptText contents model_id).candidates = c :: cs →
      ((∀ p ∈ c.content.parts, strTruthy p.text = false) →
        _call_gemini env contents model_id = .error (.runtimeError msgNoTextContent)) ∧
      (∀ pre p post t, c.content.parts = pre ++ p :: post →
        (∀ q ∈ pre, strTruthy q.text = false) →
        p.text = some t → t ≠ "" →
        (∀ v, env.parseJson t = some v → _call_gemini env contents model_id = .ok v) ∧
        (env.parseJson t = none →
          _call_gemini env contents model_id =
            .error (.valueError (msgInvalidJson t))))) := by
  refine ⟨?_, ?_⟩
  · intro hnil
    simp [_call_gemini, hnil]
  · intro c cs hc
    refine ⟨?_, ?_⟩
    · intro hall
      simp [_call_gemini, hc, scanParts_all_falsy env c.content.parts hall]
    · intro pre p post t hparts hpre hpt ht
      have hskip := scanParts_skip_falsy env pre p post hpre
      have hfirst := scanParts_first_text env p post t hpt ht
      constructor
      · intro v hv
        simp [_call_gemini, hc, hparts, hskip, hfirst, hv]
      · intro hv
        simp [_call_gemini, hc, hparts, hskip, hfirst, hv]

-- Concrete inputs for the C4 witness.

/-- partNoText has no text. -/
def partNoText : Part := { text := none }

/-- partEmptyText has empty (falsy) text. -/
def partEmptyText : Part := { text := some "" }

/-- strC4 is a text that the C4 witness environments do not parse. -/
def strC4 : String := "not json"

/-- candC4b has no truthy text part. -/
def candC4b : Candidate := { content := { parts := [partNoText, partEmptyText] } }

/-- partGood carries the text "good". -/
def partGood : Part := { text := some "good" }

/-- candC4c has a skippable part and then a parseable one. -/
def candC4c : Candidate := { content := { parts := [partNoText, partGood] } }

/-- candC4d has a single non-JSON text part. -/
def candC4d : Candidate := { content := { parts := [{ text := some strC4 }] } }

/-- envC4a returns no candidates. -/
def envC4a : Env :=
  { httpGet := fun _ => .error "unused",
    generateContent := fun _ _ _ => { candidates := [] },
    parseJson := fun _ => none,
    geminiModelId := none,
    persistApiError := none,
    now := 0 }

/-- envC4b returns one candidate with no truthy text part. -/
def envC4b : Env :=
  { envC4a with generateContent := fun _ _ _ => { candidates := [candC4b] } }

/-- envC4c parses the text "good" into the empty object. -/
def envC4c : Env :=
  { envC4a with
    generateContent := fun _ _ _ => { candidates := [candC4c] },
    parseJson := fun s => if s == "good" then some (.obj []) else none }

/-- envC4d returns the non-JSON text. -/
def envC4d : Env :=
  { envC4a with generateContent := fun _ _ _ => { candidates := [candC4d] } }

/-- C4, witness: the four branches of the engine at concrete environments. -/
theorem call_gemini_response_spec_witness :
    _call_gemini envC4a [1] defaultModelId = .error (.runtimeError msgNoCandidates) ∧
    _call_gemini envC4b [1] defaultModelId = .error (.runtimeError msgNoTextContent) ∧
    _call_gemini envC4c [1] defaultModelId = .ok (.obj []) ∧
    _call_gemini envC4d [1] defaultModelId = .error (.valueError (msgInvalidJson strC4)) := by
  refine ⟨(call_gemini_response_spec envC4a [1] defaultModelId).1 rfl, ?_, ?_, ?_⟩
  · exact ((call_gemini_response_spec envC4b [1] defaultModelId).2 candC4b [] rfl).1
      (by decide)
  · exact (((call_gemini_response_spec envC4c [1] defaultModelId).2 candC4c [] rfl).2
      [partNoText] partGood [] "good" rfl (by decide) rfl (by decide)).1 (.obj []) rfl
  · exact (((call_gemini_response_spec envC4d [1] defaultModelId).2 candC4d [] rfl).2
      [] { text := some strC4 } [] strC4 rfl (by decide) rfl (by decide)).2 rfl

-- Concrete inputs for C2.

/-- urlC2 is the direct image URL of the C2 scenario. -/
def urlC2 : String := "https://x/img.jpg"

/-- strC2 is the non-JSON text the C2 model backend returns. -/
def strC2 : String := "oops not json"

/-- candC2 carries the single non-JSON text part. -/
def candC2 : Candidate := { content := { parts := [{ text := some strC2 }] } }

/-- envC2 downloads successfully and gets the non-JSON text back. -/
def envC2 : Env :=
  { httpGet := fun _ => .ok [7],
    generateContent := fun _ _ _ => { candidates := [candC2] },
    parseJson := fun _ => none,
    geminiModelId := none,
    persistApiError := none,
    now := 0 }

/-- dbC2 is an empty store. -/
def dbC2 : DbState := { store := { rows := [] }, writeAttempts := 0 }

/-- reqC2 posts a direct image URL. -/
def reqC2 : HttpRequest :=
  { method := "POST", body := some (.obj [(kImageUrl, .str urlC2)]) }

/-- C2, counterexample: with the model backend returning the non-JSON text
"oops not json", the handler answers status 400 — not the 500 the claim
states — because `_call_gemini` raises the parse failure as a ValueError and
the handler maps every ValueError to the client-error status.  The raw text
does appear in the error message. -/
theorem invalid_json_maps_to_400_cex :
    analyze_product_image envC2 dbC2 reqC2 =
      (errorResponse 400 (msgInvalidJson strC2), dbC2) ∧
    (analyze_product_image envC2 dbC2 reqC2).1.status ≠ 500 := by
  have h : analyze_product_image envC2 dbC2 reqC2 =
      (errorResponse 400 (msgInvalidJson strC2), dbC2) := rfl
  refine ⟨h, ?_⟩
  rw [h]
  decide

/-- C2 (amended): for every request in which the model backend returns a text
segment that does not parse as JSON — whether the request resolved its URL
directly or through a stored record, and wherever the offending segment sits
after a prefix of falsy-text parts in the first candidate — the handler
responds with HTTP status 400 (the parse failure is raised as a ValueError,
which the handler maps to the client-error status) whose error message
contains the raw offending text; it never falls back silently, and the world
is unchanged. -/
theorem invalid_json_error_response (env : Env) (db : DbState) (req : HttpRequest)
    (url t : String) (contents : Bytes) (c : Candidate) (cs : List Candidate)
    (pre : List Part) (p : Part) (post : List Part)
    (hm : req.method = "POST")
    (hres : (strTruthy (getStrField (parseBody req.body) kProductImageId) = false ∧
        getStrField (parseBody req.body) kImageUrl = some url) ∨
      (∃ image_id r,
        getStrField (parseBody req.body) kProductImageId = some image_id ∧
        image_id ≠ "" ∧
        _fetch_product_image_record db.store image_id = .ok r ∧
        _select_image_url r = .ok url))
    (hune : url ≠ "")
    (hdl : env.httpGet url = .ok contents)
    (hgem : (env.generateContent promptText contents
        (env.geminiModelId.getD defaultModelId)).candidates = c :: cs)
    (hparts : c.content.parts = pre ++ p :: post)
    (hpre : ∀ q ∈ pre, strTruthy q.text = false)
    (hpt : p.text = some t)
    (ht : t ≠ "")
    (hparse : env.parseJson t = none) :
    analyze_product_image env db req = (errorResponse 400 (msgInvalidJson t), db) := by
  have hcg : _call_gemini env contents (env.geminiModelId.getD defaultModelId) =
      .error (.valueError (msgInvalidJson t)) := by
    have hskip := scanParts_skip_falsy env pre p post hpre
    have hfirst := scanParts_first_text env p post t hpt ht
    simp [_call_gemini, hgem, hparts, hskip, hfirst, hparse]
  have hut := strTruthy_true_of_ne hune
  rcases hres with ⟨hid2, hurl⟩ | ⟨image_id, r, hid, hne, hf, hs⟩
  · simp [analyze_product_image, hm, hurl, _analyze, hid2, hut,
      _download_image, hdl, hcg]
  · have hidt := strTruthy_true_of_ne hne
    simp [analyze_product_image, hm, hid, _analyze, hidt, hf, hs, hut,
      _download_image, hdl, hcg]

/-- candC2b puts the non-JSON text after a skippable no-text part. -/
def candC2b : Candidate := { content := { parts := [partNoText, { text := some strC2 }] } }

/-- envC2b downloads successfully and returns candC2b. -/
def envC2b : Env :=
  { httpGet := fun _ => .ok [7],
    generateContent := fun _ _ _ => { candidates := [candC2b] },
    parseJson := fun _ => none,
    geminiModelId := none,
    persistApiError := none,
    now := 0 }

/-- recC2row is a stored record whose thumbnail resolves. -/
def recC2row : ProductImageRecord :=
  { thumbnail_url := some "https://t/x.jpg", primary_image_url := none,
    image_urls := none, ai_metadata := none, updated_at := none }

/-- dbC2b stores recC2row under the id "row1". -/
def dbC2b : DbState :=
  { store := { rows := [{ id := "row1", record := recC2row }] }, writeAttempts := 0 }

/-- reqC2b posts the stored record id. -/
def reqC2b : HttpRequest :=
  { method := "POST", body := some (.obj [(kProductImageId, .str "row1")]) }

/-- C2, witness: the amended theorem on both resolution paths — the direct-URL
request of the counterexample environment, and a record-id request whose
offending segment follows a skipped no-text part. -/
theorem invalid_json_error_response_witness :
    analyze_product_image envC2 dbC2 reqC2 =
      (errorResponse 400 (msgInvalidJson strC2), dbC2) ∧
    analyze_product_image envC2b dbC2b reqC2b =
      (errorResponse 400 (msgInvalidJson strC2), dbC2b) :=
  ⟨invalid_json_error_response envC2 dbC2 reqC2 urlC2 strC2 [7] candC2 []
      [] { text := some strC2 } []
      rfl (.inl ⟨rfl, rfl⟩) (by decide) rfl rfl rfl (by decide) rfl (by decide) rfl,
   invalid_json_error_response envC2b dbC2b reqC2b "https://t/x.jpg" strC2 [7] candC2b []
      [partNoText] { text := some strC2 } []
      rfl (.inr ⟨"row1", recC2row, rfl, by decide, rfl, rfl⟩)
      (by decide) rfl rfl rfl (by decide) rfl (by decide) rfl⟩

/-- respond is the handler's exception-to-response mapping, factored out so
that lemmas can state that the response depends on the pipeline outcome only. -/
def respond : Except PyError AnalyzeResult → HttpResponse
  | .error (.valueError msg) => errorResponse 400 msg
  | .error (.runtimeError msg) => errorResponse 500 msg
  | .error (.requestError msg) => errorResponse 500 msg
  | .ok result =>
    { body := .jsonBody (successBody result), status := 200, contentType := some ctJson }

/-- Helper: on a POST request the final world is the world `_analyze` leaves. -/
theorem handler_db_eq (env : Env) (db : DbState) (req : HttpRequest)
    (hm : req.method = "POST") :
    (analyze_product_image env db req).2 =
      (_analyze env db (getStrField (parseBody req.body) kProductImageId)
        (getStrField (parseBody req.body) kImageUrl)).2 := by
  rcases hE : _analyze env db (getStrField (parseBody req.body) kProductImageId)
      (getStrField (parseBody req.body) kImageUrl) with ⟨res, db2⟩
  cases res with
  | error e =>
    cases e with
    | valueError m => simp [analyze_product_image, hm, hE]
    | runtimeError m => simp [analyze_product_image, hm, hE]
    | requestError m => simp [analyze_product_image, hm, hE]
  | ok a => simp [analyze_product_image, hm, hE]

/-- Helper: on a POST request the response is `respond` of the outcome. -/
theorem handler_res_eq (env : Env) (db : DbState) (req : HttpRequest)
    (hm : req.method = "POST") :
    (analyze_product_image env db req).1 =
      respond (_analyze env db (getStrField (parseBody req.body) kProductImageId)
        (getStrField (parseBody req.body) kImageUrl)).1 := by
  rcases hE : _analyze env db (getStrField (parseBody req.body) kProductImageId)
      (getStrField (parseBody req.body) kImageUrl) with ⟨res, db2⟩
  cases res with
  | error e =>
    cases e with
    | valueError m => simp [analyze_product_image, hm, hE, respond]
    | runtimeError m => simp [analyze_product_image, hm, hE, respond]
    | requestError m => simp [analyze_product_image, hm, hE, respond]
  | ok a => simp [analyze_product_image, hm, hE, respond]

/-- C7: a request whose payload yields no product_image_id never writes to the
record store under any outcome — the world comes back unchanged — and, in
general, any change of the write-attempt counter during the pipeline requires
a truthy product_image_id whose record lookup succeeded in the same request. -/
theorem url_only_never_writes :
    (∀ (env : Env) (db : DbState) (req : HttpRequest),
      getStrField (parseBody req.body) kProductImageId = none →
      (analyze_product_image env db req).2 = db) ∧
    (∀ (env : Env) (db : DbState) (image_id image_url : Option String),
      (_analyze env db image_id image_url).2.writeAttempts ≠ db.writeAttempts →
      strTruthy image_id = true ∧
      ∃ r, _fetch_product_image_record db.store (image_id.getD "") = .ok r) := by
  constructor
  · intro env db req hid
    by_cases hm : req.method = "POST"
    · rw [handler_db_eq env db req hm, hid]
      exact (analyze_falsy_id env db db none
        (getStrField (parseBody req.body) kImageUrl) rfl).1
    · have hr := non_post_method_response env db req hm
      rw [hr]
  · intro env db image_id image_url hw
    by_cases hid : strTruthy image_id = true
    · refine ⟨hid, ?_⟩
      cases hf : _fetch_product_image_record db.store (image_id.getD "") with
      | ok r => exact ⟨r, rfl⟩
      | error e =>
        have h2 : (_analyze env db image_id image_url).2 = db := by
          simp [_analyze, hid, hf]
        rw [h2] at hw
        exact absurd rfl hw
    · have hid2 : strTruthy image_id = false := by
        cases h2 : strTruthy image_id with
        | false => rfl
        | true => exact absurd h2 hid
      have h2 := (analyze_falsy_id env db db image_id image_url hid2).1
      rw [h2] at hw
      exact absurd rfl hw

/-- reqC7 posts a direct image URL and no product_image_id. -/
def reqC7 : HttpRequest :=
  { method := "POST", body := some (.obj [(kImageUrl, .str "https://y/i.jpg")]) }

/-- C7, witness: the no-id part of the frame theorem at a concrete request
whose pipeline runs into the model backend and fails there. -/
theorem url_only_never_writes_witness :
    (analyze_product_image envC2 dbC2 reqC7).2 = dbC2 :=
  url_only_never_writes.1 envC2 dbC2 reqC7 rfl

/-- C10: an empty-string product_image_id is treated exactly as an absent one:
the world is unchanged under every outcome, the response does not depend on
the record store or the write counter at all (the store is never queried), a
missing or empty image_url fails with the missing-image-input ValueError as
400, and on the success path the caller-supplied image_url is used directly as
the source URL with no persistence write. -/
theorem empty_id_as_absent (env : Env) (db : DbState) (req : HttpRequest)
    (hm : req.method = "POST")
    (hid : getStrField (parseBody req.body) kProductImageId = some "") :
    ((analyze_product_image env db req).2 = db) ∧
    (∀ db2 : DbState, (analyze_product_image env db2 req).1 =
      (analyze_product_image env db req).1) ∧
    ((getStrField (parseBody req.body) kImageUrl = none ∨
      getStrField (parseBody req.body) kImageUrl = some "") →
      analyze_product_image env db req = (errorResponse 400 msgNoImageInput, db)) ∧
    (∀ url contents analysis, getStrField (parseBody req.body) kImageUrl = some url →
      url ≠ "" →
      env.httpGet url = .ok contents →
      _call_gemini env contents (env.geminiModelId.getD defaultModelId) = .ok analysis →
      analyze_product_image env db req =
        ({ body := .jsonBody (successBody
            { source_image_url := url, analysis := analysis }),
           status := 200, contentType := some ctJson }, db)) := by
  have hfid : strTruthy (some "") = false := by decide
  have h0 : strTruthy (none : Option String) = false := rfl
  refine ⟨?_, ?_, ?_, ?_⟩
  · rw [handler_db_eq env db req hm, hid]
    exact (analyze_falsy_id env db db (some "")
      (getStrField (parseBody req.body) kImageUrl) hfid).1
  · intro db2
    rw [handler_res_eq env db req hm, handler_res_eq env db2 req hm, hid]
    exact congrArg respond (analyze_falsy_id env db2 db (some "")
      (getStrField (parseBody req.body) kImageUrl) hfid).2
  · intro hcase
    rcases hcase with h | h
    · simp [analyze_product_image, hm, hid, h, _analyze, hfid, h0]
    · simp [analyze_product_image, hm, hid, h, _analyze, hfid]
  · intro url contents analysis hurl hune hdl hg
    have hut := strTruthy_true_of_ne hune
    simp [analyze_product_image, hm, hid, hurl, _analyze, hfid, hut,
      _download_image, hdl, hg]

/-- envC10 downloads successfully and parses the text "good". -/
def envC10 : Env :=
  { envC4c with httpGet := fun _ => .ok [3] }

/-- reqC10 posts an empty product_image_id together with a direct URL. -/
def reqC10 : HttpRequest :=
  { method := "POST",
    body := some (.obj [(kProductImageId, .str ""), (kImageUrl, .str "https://z/i.jpg")]) }

/-- C10, witness: the empty-id theorem at a concrete success scenario: no
write occurs and the caller URL is the source URL of the 200 body. -/
theorem empty_id_as_absent_witness :
    (analyze_product_image envC10 dbC2 reqC10).2 = dbC2 ∧
    analyze_product_image envC10 dbC2 reqC10 =
      ({ body := .jsonBody (successBody
          { source_image_url := "https://z/i.jpg", analysis := .obj [] }),
         status := 200, contentType := some ctJson }, dbC2) :=
  ⟨(empty_id_as_absent envC10 dbC2 reqC10 rfl rfl).1,
   (empty_id_as_absent envC10 dbC2 reqC10 rfl rfl).2.2.2 "https://z/i.jpg" [3] (.obj [])
     rfl (by decide) rfl rfl⟩

-- Concrete inputs shared by the C8 and C6 witnesses.

/-- recRow1 is a stored record whose thumbnail resolves. -/
def recRow1 : ProductImageRecord :=
  { thumbnail_url := some "https://t/x.jpg", primary_image_url := none,
    image_urls := none, ai_metadata := none, updated_at := none }

/-- C8: the first failing stage aborts the request: when the persistence write
fails after a successful analysis, the handler answers 500 whose body is
exactly the error object carrying the persistence message — the analysis value
is not reported (the error body has no analysis key). -/
theorem persist_failure_aborts (env : Env) (db : DbState) (req : HttpRequest)
    (image_id : String) (r : ProductImageRecord) (url : String) (contents : Bytes)
    (analysis : Json) (apiMsg : String)
    (hm : req.method = "POST")
    (hid : getStrField (parseBody req.body) kProductImageId = some image_id)
    (hne : image_id ≠ "")
    (hf : _fetch_product_image_record db.store image_id = .ok r)
    (hs : _select_image_url r = .ok url)
    (hune : url ≠ "")
    (hdl : env.httpGet url = .ok contents)
    (hg : _call_gemini env contents (env.geminiModelId.getD defaultModelId) = .ok analysis)
    (hp : env.persistApiError = some apiMsg) :
    analyze_product_image env db req =
      (errorResponse 500 (msgPersistFailed apiMsg),
        { store := db.store, writeAttempts := db.writeAttempts + 1 }) ∧
    jsonGet (Json.obj [(kError, .str (msgPersistFailed apiMsg))]) kAnalysis = none := by
  constructor
  · have hidt := strTruthy_true_of_ne hne
    have hut := strTruthy_true_of_ne hune
    simp [analyze_product_image, hm, hid, _analyze, hidt, hf, hs, hut,
      _download_image, hdl, hg, _update_ai_metadata, hp]
  · rfl

/-- dbC8 stores one row under the id "row1". -/
def dbC8 : DbState :=
  { store := { rows := [{ id := "row1", record := recRow1 }] }, writeAttempts := 0 }

/-- envC8 analyses successfully but the persistence backend raises. -/
def envC8 : Env :=
  { envC4c with httpGet := fun _ => .ok [3], persistApiError := some "boom" }

/-- reqC8 posts the stored id. -/
def reqC8 : HttpRequest :=
  { method := "POST", body := some (.obj [(kProductImageId, .str "row1")]) }

/-- C8, witness: the persist-failure theorem at the concrete scenario. -/
theorem persist_failure_aborts_witness :
    analyze_product_image envC8 dbC8 reqC8 =
      (errorResponse 500 (msgPersistFailed "boom"),
        { store := dbC8.store, writeAttempts := dbC8.writeAttempts + 1 }) :=
  (persist_failure_aborts envC8 dbC8 reqC8 "row1" recRow1 "https://t/x.jpg" [3] (.obj [])
    "boom" rfl rfl (by decide) rfl rfl (by decide) rfl rfl rfl).1

/-- Helper: the update payload does not change a row's id. -/
theorem updateRow_id (image_id : String) (m : Json) (ts : Nat) (row : Row) :
    (updateRow image_id m ts row).id = row.id := by
  simp only [updateRow]
  split <;> rfl

/-- Helper: the equality-filtered update commutes with the equality lookup. -/
theorem rowsMatching_storeUpdate (st : Store) (image_id : String) (m : Json) (ts : Nat) :
    rowsMatching (storeUpdate st image_id m ts) image_id =
      (rowsMatching st image_id).map (updateRow image_id m ts) := by
  simp only [rowsMatching, storeUpdate]
  have hc : ((fun row => row.id == image_id) ∘ updateRow image_id m ts) =
      fun row => row.id == image_id := by
    funext row
    simp [Function.comp, updateRow_id]
  rw [List.filter_map, hc]

/-- Helper: after the update, the looked-up record is the old one with
ai_metadata and updated_at overwritten and every other field preserved. -/
theorem fetch_after_update (st : Store) (image_id : String) (m : Json) (ts : Nat)
    (r0 : ProductImageRecord)
    (hf : _fetch_product_image_record st image_id = .ok r0) :
    _fetch_product_image_record (storeUpdate st image_id m ts) image_id =
      .ok { r0 with ai_metadata := some m, updated_at := some ts } := by
  have hunf : ∀ s, _fetch_product_image_record s image_id =
      (match rowsMatching s image_id with
       | [] => .error (.valueError (msgNoRow image_id))
       | row :: _ => .ok row.record) := fun s => rfl
  cases hrm : rowsMatching st image_id with
  | nil =>
    rw [hunf st, hrm] at hf
    cases hf
  | cons row rest =>
    rw [hunf st, hrm] at hf
    simp only [Except.ok.injEq] at hf
    have hmem : (row.id == image_id) = true := by
      have hin : row ∈ rowsMatching st image_id := by
        rw [hrm]
        exact List.mem_cons_self row rest
      exact (List.mem_filter.mp hin).2
    rw [hunf, rowsMatching_storeUpdate, hrm]
    simp [updateRow, hmem, hf]

/-- C6: a successful record-id request persists and reports the same analysis:
the handler answers 200 with the analysis value, the final store is the
equality-filtered overwrite setting ai_metadata to exactly that value and
updated_at to the clock reading, the row looked up afterwards equals the old
row with only those two fields replaced (wholesale overwrite, no merge with
prior ai_metadata), and the persisted timestamp is at or after the request
start time whenever the clock is monotone. -/
theorem success_record_roundtrip (env : Env) (db : DbState) (req : HttpRequest)
    (image_id : String) (r : ProductImageRecord) (url : String) (contents : Bytes)
    (analysis : Json) (startTime : Nat)
    (hm : req.method = "POST")
    (hid : getStrField (parseBody req.body) kProductImageId = some image_id)
    (hne : image_id ≠ "")
    (hf : _fetch_product_image_record db.store image_id = .ok r)
    (hs : _select_image_url r = .ok url)
    (hune : url ≠ "")
    (hdl : env.httpGet url = .ok contents)
    (hg : _call_gemini env contents (env.geminiModelId.getD defaultModelId) = .ok analysis)
    (hp : env.persistApiError = none)
    (hclock : startTime ≤ env.now) :
    analyze_product_image env db req =
      ({ body := .jsonBody (successBody { source_image_url := url, analysis := analysis }),
         status := 200, contentType := some ctJson },
        { store := storeUpdate db.store image_id analysis env.now,
          writeAttempts := db.writeAttempts + 1 }) ∧
    _fetch_product_image_record (storeUpdate db.store image_id analysis env.now) image_id =
      .ok { r with ai_metadata := some analysis, updated_at := some env.now } ∧
    startTime ≤ env.now := by
  refine ⟨?_, fetch_after_update db.store image_id analysis env.now r hf, hclock⟩
  have hidt := strTruthy_true_of_ne hne
  have hut := strTruthy_true_of_ne hune
  simp [analyze_product_image, hm, hid, _analyze, hidt, hf, hs, hut,
    _download_image, hdl, hg, _update_ai_metadata, hp]

/-- dbC6 stores one row under the id "row1". -/
def dbC6 : DbState :=
  { store := { rows := [{ id := "row1", record := recRow1 }] }, writeAttempts := 0 }

/-- envC6 analyses and persists successfully, with the clock at 5. -/
def envC6 : Env :=
  { httpGet := fun _ => .ok [3],
    generateContent := fun _ _ _ => { candidates := [candC4c] },
    parseJson := fun s => if s == "good" then some (.obj []) else none,
    geminiModelId := none,
    persistApiError := none,
    now := 5 }

/-- reqC6 posts the stored id. -/
def reqC6 : HttpRequest :=
  { method := "POST", body := some (.obj [(kProductImageId, .str "row1")]) }

/-- C6, witness: the round-trip theorem at the concrete scenario with request
start time 2 and clock reading 5. -/
theorem success_record_roundtrip_witness :
    analyze_product_image envC6 dbC6 reqC6 =
      ({ body := .jsonBody (successBody
          { source_image_url := "https://t/x.jpg", analysis := .obj [] }),
         status := 200, contentType := some ctJson },
        { store := storeUpdate dbC6.store "row1" (.obj []) 5, writeAttempts := 1 }) ∧
    _fetch_product_image_record (storeUpdate dbC6.store "row1" (.obj []) 5) "row1" =
      .ok { recRow1 with ai_metadata := some (.obj []), updated_at := some 5 } :=
  ⟨(success_record_roundtrip envC6 dbC6 reqC6 "row1" recRow1 "https://t/x.jpg" [3]
      (.obj []) 2 rfl rfl (by decide) rfl rfl (by decide) rfl rfl rfl (by decide)).1,
   (success_record_roundtrip envC6 dbC6 reqC6 "row1" recRow1 "https://t/x.jpg" [3]
      (.obj []) 2 rfl rfl (by decide) rfl rfl (by decide) rfl rfl rfl (by decide)).2.1⟩

end FrostCart
